import Mathlib

/-!
Verification of the invoice PDF generator (`src/main.py`).

The program renders an invoice record (a Python dict produced by a pydantic
model dump) into a PDF through ReportLab, and serves it over FastAPI.  We
shallowly embed the logic of the repository itself: dict reads with defaults, the
defensive `float()` coercion of line items, the subtotal/GST/total arithmetic,
the Python `:,.2f` currency formatting, the filename sanitization, and the
layout-cursor arithmetic of `create_invoice_pdf`, which we model as a function
from the record (plus an abstract text-measurement oracle standing for
the ReportLab paragraph/table wrapping) to a list of drawing instructions.

Python floats are idealized as exact rationals (the source performs no
rounding until string formatting); `str.isalnum` is modelled on its ASCII
fragment; `float(str)` is modelled for plain decimal literals, which is the
only shape the claims exercise.
-/

namespace Yara

/-- A Python value as it appears in the dumped invoice dict:
`None`, a string, or a number (float idealized as `ℚ`). -/
inductive PyVal
| vnone
| vstr (s : String)
| vnum (q : ℚ)
deriving DecidableEq, Repr

/-- Python truthiness for the values above (`if text:` and friends). -/
def PyVal.truthy : PyVal → Bool
| .vnone => false
| .vstr s => !s.isEmpty
| .vnum q => q != 0

/-- Passing a value where the canvas requires a `str` (e.g. the bare
`c.drawRightString(..., due_date_str)` call): anything else errors. -/
def PyVal.asText : PyVal → Option String
| .vstr s => some s
| _ => Option.none

/-- Using a value in arithmetic (line 153 of `main.py`): must be a number. -/
def PyVal.asNum : PyVal → Option ℚ
| .vnum q => some q
| _ => Option.none

/-- Decimal digits of `n`, least significant first; `['0']` for `0`. -/
def natDigitsRev (n : ℕ) : List Char :=
  if h : n < 10 then [Nat.digitChar n]
  else Nat.digitChar (n % 10) :: natDigitsRev (n / 10)
decreasing_by exact Nat.div_lt_self (by omega) (by omega)

/-- Model of `str()` on a Python float, defined for values with a finite decimal
expansion (the source only ever prints such values): the shortest decimal
form with at least one fractional digit, e.g. `2.0`, `2.5`, `0.05`. -/
def pyFloatStr (q : ℚ) : String :=
  let sign : List Char := if q < 0 then ['-'] else []
  match (List.range 30).find? (fun k => (q * (10 : ℚ) ^ k).den == 1) with
  | some k =>
      let m := (q * (10 : ℚ) ^ k).num.natAbs
      let ip := m / 10 ^ k
      let fr := m % 10 ^ k
      let frDigits : List Char :=
        if k = 0 then ['0']
        else
          let ds := natDigitsRev fr
          (ds ++ List.replicate (k - ds.length) '0').reverse
      String.mk (sign ++ (natDigitsRev ip).reverse ++ '.' :: frDigits)
  | Option.none => toString q

/-- Model of the `str()` conversion inside an f-string. -/
def pyRepr : PyVal → String
| .vnone => "None"
| .vstr s => s
| .vnum q => pyFloatStr q

/-- Whitespace characters for Python `strip`/`rstrip`. -/
def pyIsSpace (c : Char) : Bool :=
  c == ' ' || c == '\t' || c == '\n' || c == '\r' || c == '\x0b' || c == '\x0c'

/-- Numeric value of a list of decimal digit characters (most significant
first), as used when parsing a float literal. -/
def natOfDigits (l : List Char) : ℕ :=
  l.foldl (fun a c => a * 10 + (c.toNat - 48)) 0

/-- Model of Python `float(s)` on strings, for plain decimal literals:
optional surrounding whitespace, optional sign, digits with an optional
decimal point (at least one digit present).  Anything else fails, in
particular `float("abc")`. -/
def parsePyFloat (s : String) : Option ℚ :=
  let cs := ((s.toList.dropWhile pyIsSpace).reverse.dropWhile pyIsSpace).reverse
  let signAndRest : ℚ × List Char :=
    match cs with
    | '-' :: r => (-1, r)
    | '+' :: r => (1, r)
    | r => (1, r)
  let sign := signAndRest.1
  let body := signAndRest.2
  let intDigits := body.takeWhile Char.isDigit
  let rest := body.dropWhile Char.isDigit
  match rest with
  | [] =>
      if intDigits.isEmpty then Option.none
      else some (sign * (natOfDigits intDigits : ℚ))
  | '.' :: fracCs =>
      let fracDigits := fracCs.takeWhile Char.isDigit
      if !(fracCs.dropWhile Char.isDigit).isEmpty then Option.none
      else if intDigits.isEmpty && fracDigits.isEmpty then Option.none
      else some (sign * ((natOfDigits intDigits : ℚ) +
        (natOfDigits fracDigits : ℚ) / (10 : ℚ) ^ fracDigits.length))
  | _ => Option.none

/-- Model of Python `float(v)` on a dict value (`main.py` lines 144):
numbers pass through, strings are parsed, `None` raises `TypeError`. -/
def pyFloat : PyVal → Option ℚ
| .vnum q => some q
| .vstr s => parsePyFloat s
| .vnone => Option.none

/-- Insert a thousands comma after every third digit; the input and output
lists are least-significant-digit first. -/
def groupThrees (l : List Char) : List Char :=
  if _h : l.length ≤ 3 then l
  else l.take 3 ++ ',' :: groupThrees (l.drop 3)
termination_by l.length
decreasing_by simp [List.length_drop]; omega

/-- Model of Python `f"{x:,.2f}"`: round to cents (float formatting rounds
to nearest), then print with thousands separators and two decimals. -/
def formatCommas2 (q : ℚ) : String :=
  let cents : ℤ := round (q * 100)
  let n := cents.natAbs
  let intRev := groupThrees (natDigitsRev (n / 100))
  let frac : List Char := [Nat.digitChar (n % 100 / 10), Nat.digitChar (n % 100 % 10)]
  let core := intRev.reverse ++ '.' :: frac
  String.mk (if cents < 0 then '-' :: core else core)

/-- Checker for a well-formed grouped integer part, least significant digit
first: groups of three digits separated by commas, the leading (last) group
of one to three digits. -/
def goodRev (l : List Char) : Bool :=
  if _h : l.length ≤ 3 then !l.isEmpty && l.all Char.isDigit
  else
    match l with
    | a :: b :: c :: ',' :: rest => a.isDigit && b.isDigit && c.isDigit && goodRev rest
    | _ => false
termination_by l.length
decreasing_by simp_all; omega

/-- A currency string as the spec demands it: an optional minus sign, an
integer part with thousands separators, a point, exactly two decimals. -/
def isCurrencyFormat (s : String) : Bool :=
  let cs : List Char :=
    match s.toList with
    | '-' :: rest => rest
    | l => l
  match cs.reverse with
  | d2 :: d1 :: '.' :: restRev => d1.isDigit && d2.isDigit && goodRev restRev
  | _ => false

/-! ## The invoice dict and the pydantic request models -/

/-- A line-item dict as read by `create_invoice_pdf` (via `item.get`
with defaults); `Option.none` in a field means the key is absent. -/
structure PyItem where
  desc : Option PyVal := Option.none
  price : Option PyVal := Option.none
  qty : Option PyVal := Option.none
deriving DecidableEq, Repr

/-- The read `item.get("desc", "")`. -/
def PyItem.getDesc (it : PyItem) : PyVal := it.desc.getD (.vstr "")

/-- The read `item.get("price", 0.0)`. -/
def PyItem.getPrice (it : PyItem) : PyVal := it.price.getD (.vnum 0)

/-- The read `item.get("qty", 0.0)`. -/
def PyItem.getQty (it : PyItem) : PyVal := it.qty.getD (.vnum 0)

/-- The invoice dict handed to `create_invoice_pdf`: string-keyed scalar
entries plus the `items` key (always a list when present).  A key that is
absent is distinct from a key present with value `None` — exactly the
distinction `dict.get` observes. -/
structure PyDict where
  entries : List (String × PyVal) := []
  items : Option (List PyItem) := Option.none
deriving DecidableEq, Repr

/-- The read `invoice_data.get(k, dflt)`. -/
def PyDict.get (d : PyDict) (k : String) (dflt : PyVal) : PyVal :=
  match d.entries.lookup k with
  | some v => v
  | Option.none => dflt

/-- The read `invoice_data.get("items", [])`. -/
def PyDict.getItems (d : PyDict) : List PyItem := d.items.getD []

/-- The pydantic `InvoiceItem` model (`main.py` lines 193-196). -/
structure InvoiceItem where
  desc : String
  price : ℚ := 0
  qty : ℚ := 0
deriving DecidableEq, Repr

/-- The pydantic `InvoiceRequestData` model (`main.py` lines 198-211):
`invoice_no`, `invoice_date`, `client_name` are required, the rest optional
with the listed defaults; `advance_payment` and `gst_rate` carry the aliases
`advancePayment` / `gstRate`. -/
structure InvoiceRequestData where
  invoice_no : String
  invoice_date : String
  due_date : Option String := Option.none
  client_name : String
  client_phone : Option String := Option.none
  client_email : Option String := Option.none
  client_address : Option String := Option.none
  items : List InvoiceItem := []
  discount : ℚ := 0
  advance_payment : ℚ := 0
  gst_rate : ℚ := 5
deriving DecidableEq, Repr

/-- An optional string field as it appears in a model dump. -/
def optStr : Option String → PyVal
| some s => .vstr s
| Option.none => .vnone

/-- Model of `data.model_dump(by_alias=True)` (`main.py` lines 234/258): every field
is emitted (absent optionals as `None`), and fields with an alias are keyed
by the alias — `advancePayment` and `gstRate`, not `advance_payment` and
`gst_rate`. -/
def model_dump (r : InvoiceRequestData) : PyDict where
  entries :=
    [("invoice_no", .vstr r.invoice_no),
     ("invoice_date", .vstr r.invoice_date),
     ("due_date", optStr r.due_date),
     ("client_name", .vstr r.client_name),
     ("client_phone", optStr r.client_phone),
     ("client_email", optStr r.client_email),
     ("client_address", optStr r.client_address),
     ("discount", .vnum r.discount),
     ("advancePayment", .vnum r.advance_payment),
     ("gstRate", .vnum r.gst_rate)]
  items := some (r.items.map fun it =>
    { desc := some (.vstr it.desc), price := some (.vnum it.price),
      qty := some (.vnum it.qty) })

/-! ## The line-item table (`main.py` lines 140-151) -/

/-- A table cell: a styled `Paragraph`, or the bare string the `except`
branch appends (bare empty strings for the numeric cells of an invalid row). -/
inductive Cell
| para (s style : String)
| raw (s : String)
deriving DecidableEq, Repr

/-- The fixed header row of the table. -/
def headerRow : List Cell :=
  [.para "DESCRIPTION" "TableHeader", .para "PRICE" "TableHeader",
   .para "QTY" "TableHeader", .para "SUBTOTAL" "TableHeader"]

/-- One iteration of the item loop (lines 142-147): coerce `price` and `qty`
with `float`; on success emit the formatted row and the per-item subtotal
contribution, on failure (the `except` branch) emit the flagged row with
blank numeric cells and contribute nothing — note the `+=` never runs when
either coercion raises. -/
def itemRow (it : PyItem) : List Cell × ℚ :=
  match pyFloat it.getPrice, pyFloat it.getQty with
  | some price, some qty =>
      let item_subtotal := price * qty
      let price_str := if price ≠ 0 then formatCommas2 price else ""
      ([.para (pyRepr it.getDesc) "TableCell",
        .para price_str "TableCellCenter",
        .para (pyFloatStr qty) "TableCellCenter",
        .para (formatCommas2 item_subtotal) "TableCellRight"],
       item_subtotal)
  | _, _ =>
      ([.para (pyRepr it.getDesc ++ " (Invalid Price/Qty)") "TableCell",
        .raw "", .raw "", .raw ""], 0)

/-- The loop of lines 141-147: starting from the header row and a zero
accumulator, append one row per item and accumulate `sub_total_amount`. -/
def buildTable (items : List PyItem) : List (List Cell) × ℚ :=
  items.foldl
    (fun acc it =>
      let r := itemRow it
      (acc.1 ++ [r.1], acc.2 + r.2))
    ([headerRow], 0)

/-! ## Derived totals (`main.py` line 153) -/

/-- The four derived quantities of the financial summary. -/
structure Totals where
  subTotal : ℚ
  gstAmount : ℚ
  grandTotal : ℚ
  amountDue : ℚ
deriving DecidableEq, Repr

/-- Line 153: `gst_total = (sub_total_amount - discount_amount) * (gst_rate / 100.0)`,
`grand_total = sub_total_amount - discount_amount + gst_total`,
`total_due = grand_total - advance_payment`. -/
def summaryTotals (sub disc adv rate : ℚ) : Totals :=
  let gst := (sub - disc) * (rate / 100)
  let grand := sub - disc + gst
  ⟨sub, gst, grand, grand - adv⟩

/-! ## Filename sanitization (`main.py` lines 238-239 and 262-263) -/

/-- A character the sanitizer keeps: `c.isalnum() or c in ('-', '_')`
(Python `isalnum` modelled on ASCII). -/
def keepChar (c : Char) : Bool := c.isAlphanum || c == '-' || c == '_'

/-- Python `rstrip()`: drop trailing whitespace. -/
def pyRstrip (l : List Char) : List Char :=
  (l.reverse.dropWhile pyIsSpace).reverse

/-- The joined filter keeping only sanctioned characters, then rstripped (lines 238/262). -/
def sanitizeInvoiceNo (s : String) : String :=
  String.mk (pyRstrip (s.toList.filter keepChar))

/-- The filename template of lines 239/263 — an empty sanitized
name is falsy, so `generated` is substituted. -/
def downloadFilename (s : String) : String :=
  "invoice_" ++ (if sanitizeInvoiceNo s = "" then "generated" else sanitizeInvoiceNo s) ++ ".pdf"

/-! ## The abstract canvas: drawing instructions and measurement oracle

`create_invoice_pdf` is modelled as a pure function from the invoice dict
to the ordered list of drawing primitives it issues to the ReportLab canvas
(the byte-level PDF backend is outside the repository scope).  Text
wrapping heights (`Paragraph.wrapOn` / `Table.wrapOn`) are font-metric
computations inside ReportLab; they enter the model as an abstract
measurement oracle `Metrics`, so every theorem below holds for every
possible measurement outcome. -/

/-- An RGB color. -/
structure Color where
  r : ℚ
  g : ℚ
  b : ℚ
deriving DecidableEq, Repr

def HEADER_RED : Color := ⟨0.8, 0.2, 0.2⟩
def TABLE_HEADER_RED : Color := ⟨0.75, 0.25, 0.25⟩
def DARK_RED : Color := ⟨0.6, 0, 0⟩
def colRed : Color := ⟨1, 0, 0⟩
def colDarkgrey : Color := ⟨169/255, 169/255, 169/255⟩
def colBlack : Color := ⟨0, 0, 0⟩
def colWhite : Color := ⟨1, 1, 1⟩

/-- Horizontal anchoring of a canvas string draw
(`drawString` / `drawRightString` / `drawCentredString`). -/
inductive Align
| left
| right
| center
deriving DecidableEq, Repr

/-- A drawing primitive issued to the canvas. -/
inductive Instr
| text (font : String) (size : ℚ) (color : Color) (align : Align) (x y : ℚ) (s : String)
| rotText (font : String) (size : ℚ) (color : Color) (tx ty angle : ℚ) (s : String)
| para (x y w indent : ℚ) (s style : String)
| image (path : String) (x y w h : ℚ)
| roundRect (x y w h radius : ℚ) (fill : Color)
| line (x1 y1 x2 y2 : ℚ)
| table (x y : ℚ) (rows : List (List Cell))
deriving DecidableEq, Repr

/-- Whether an image asset is usable: present and drawable, present but
failing to load (the `except` branch of `draw_logo`), or absent
(`os.path.exists` false). -/
inductive AssetStatus
| ok
| loadError
| missing
deriving DecidableEq, Repr

/-- The measurement oracle: wrapped paragraph height as a function of text,
style, left indent and available width; table height as a function of its
rows; and the status of each image asset on disk. -/
structure Metrics where
  paraH : String → String → ℚ → ℚ → ℚ
  tableH : List (List Cell) → ℚ
  asset : String → AssetStatus

/-! ## Page geometry (`main.py` lines 26-39) -/

def inch : ℚ := 72
/-- A4 width in points: `210 mm` at `72/25.4` points per mm. -/
def PAGE_WIDTH : ℚ := 75600 / 127
/-- A4 height in points: `297 mm`. -/
def PAGE_HEIGHT : ℚ := 106920 / 127
def LEFT_MARGIN : ℚ := 0.75 * inch
def RIGHT_MARGIN : ℚ := 0.75 * inch
def TOP_MARGIN : ℚ := 0.5 * inch
def BOTTOM_MARGIN : ℚ := 0.5 * inch
def CONTENT_WIDTH : ℚ := PAGE_WIDTH - LEFT_MARGIN - RIGHT_MARGIN

/-- Asset paths (modelled relative to the install directory). -/
def LOGO_PATH : String := "logo.png"
def QRCODE_PATH : String := "qr-code.png"
def SIGNATURE_PATH : String := "signature.png"

/-- Model of `os.path.basename`. -/
def pyBasename (s : String) : String := (s.splitOn "/").reverse.headD s

/-- Model of `draw_logo` (`main.py` lines 42-57): draw the image when it is usable;
otherwise draw only a centered caption at the middle of the intended image
box — red `Image Error: <name>` when the file exists but fails to load,
dark-grey `[<name> not found]` when it is absent.  No other primitive is
issued in the fallback branches. -/
def drawLogo (st : AssetStatus) (path : String) (x y w h : ℚ) : List Instr :=
  match st with
  | .ok => [.image path x y w h]
  | .loadError =>
      [.text "Helvetica" 8 colRed .center (x + w / 2) (y + h / 2)
        ("Image Error: " ++ pyBasename path)]
  | .missing =>
      [.text "Helvetica" 8 colDarkgrey .center (x + w / 2) (y + h / 2)
        ("[" ++ pyBasename path ++ " not found]")]

/-! ## Header columns (`main.py` lines 98-137) -/

def header_y_start : ℚ := PAGE_HEIGHT - TOP_MARGIN - 0.4 * inch
def logo_size : ℚ := 1.5 * inch
def right_column_start_x : ℚ := PAGE_WIDTH / 2 + 0.5 * inch
def right_column_width : ℚ := PAGE_WIDTH - RIGHT_MARGIN - right_column_start_x
def upi_text : String := "UPI ID - TOURISM.NORTHSIKKIM@CNRB"

/-- The right header column (title, invoice metadata lines, UPI line, QR
block with the rotated `PAY HERE` label), returning its instructions and the
final value of `y_pos_right`. -/
def rightColumn (m : Metrics) (invNoR invDateS dueS : String) : List Instr × ℚ :=
  let hInv := m.paraH "INVOICE" "H1" 0 right_column_width
  let y1 := header_y_start - (0.4 * inch + hInv + 0.15 * inch)
  let y2 := y1 - 0.20 * inch
  let y3 := y2 - 0.20 * inch
  let y4 := y3 - (0.20 * inch + 0.1 * inch)
  let hUpi := m.paraH upi_text "UPI" 0 right_column_width
  let y5 := y4 - (hUpi + 0.1 * inch)
  let qr_size := 1.6 * inch
  let qr_x := right_column_start_x + (right_column_width - qr_size) / 2
  let qr_y := y5 - qr_size
  ([.text "Helvetica" 8 HEADER_RED .right (right_column_start_x + right_column_width)
      (header_y_start + 0.1 * inch)
      ("INVOICE NO: " ++ invNoR ++ " | INVOICE DATE: " ++ invDateS),
    .para right_column_start_x (header_y_start - 0.4 * inch) right_column_width 0 "INVOICE" "H1",
    .text "Helvetica" 9 colBlack .right (right_column_start_x + right_column_width) y1 ("#" ++ invNoR),
    .text "Helvetica" 9 colBlack .left right_column_start_x y1 "Invoice No:",
    .text "Helvetica" 9 colBlack .right (right_column_start_x + right_column_width) y2 dueS,
    .text "Helvetica" 9 colBlack .left right_column_start_x y2 "Due Date:",
    .text "Helvetica" 9 colBlack .right (right_column_start_x + right_column_width) y3 invDateS,
    .text "Helvetica" 9 colBlack .left right_column_start_x y3 "Invoice Date:",
    .para right_column_start_x y4 right_column_width 0 upi_text "UPI"]
   ++ drawLogo (m.asset QRCODE_PATH) QRCODE_PATH qr_x qr_y qr_size qr_size ++
   [.rotText "Helvetica-Bold" 10 HEADER_RED (qr_x - 0.2 * inch) (qr_y + qr_size / 2) 90 "PAY HERE"],
   y5 - (qr_size + 0.2 * inch))

/-- Final value of `y_pos_right`, read by the table region. -/
def yPosRightFinal (m : Metrics) : ℚ := (rightColumn m "" "" "").2

/-- The value of `client_address` split on line breaks when truthy, else empty
(`main.py` line 92).  The schema guarantees the value is a string or
`None`; `pyRepr` is the identity on the truthy (string) case. -/
def addrLines (d : PyDict) : List String :=
  if (d.get "client_address" (.vstr "")).truthy then
    (pyRepr (d.get "client_address" (.vstr ""))).splitOn "\n"
  else []

/-- Python `needle in hay`: `pre` tests a prefix match at the head, the
outer loop slides over every suffix of the haystack. -/
def charsHavePre : List Char → List Char → Bool
| [], _ => true
| _ :: _, [] => false
| a :: as, b :: bs => a == b && charsHavePre as bs

def charsHaveSub (n : List Char) : List Char → Bool
| [] => n.isEmpty
| l@(_ :: t) => charsHavePre n l || charsHaveSub n t

/-- Python `needle in hay` on strings. -/
def strIn (needle hay : String) : Bool := charsHaveSub needle.toList hay.toList

/-- The `cust_info_dynamic` list of `main.py` lines 130-131: client name,
the optional phone/email f-strings, and when the address is non-empty an
`Address:` header plus one entry per address line. -/
def custInfoDynamic (d : PyDict) : List (PyVal × String) :=
  [(d.get "client_name" (.vstr ""), "Bold"),
   (if (d.get "client_phone" (.vstr "")).truthy then
      .vstr ("Phone: " ++ pyRepr (d.get "client_phone" (.vstr ""))) else .vstr "", "Normal"),
   (if (d.get "client_email" (.vstr "")).truthy then
      .vstr ("Email: " ++ pyRepr (d.get "client_email" (.vstr ""))) else .vstr "", "Normal")]
  ++ (if addrLines d ≠ [] then
        (PyVal.vstr "Address:", "Normal") :: (addrLines d).map (fun l => (PyVal.vstr l, "Normal"))
      else [])

/-- One iteration of the `for text, style in cust_info_dynamic` loop
(`main.py` lines 132-137): skip falsy entries; indent a line that occurs in
the address lines (and is not the `Address:` header); draw and advance the
left cursor by the measured height. -/
def custStep (m : Metrics) (addr : List String) (acc : List Instr × ℚ)
    (tv : PyVal × String) : List Instr × ℚ :=
  if tv.1.truthy then
    let s := pyRepr tv.1
    let isAddr := (addr.any fun line => !line.isEmpty && strIn line s) && !(strIn "Address:" s)
    let ind : ℚ := if isAddr then 0.3 * inch else 0
    let h := m.paraH s tv.2 ind (3 * inch + 1 * inch)
    (acc.1 ++ [.para LEFT_MARGIN acc.2 (3 * inch + 1 * inch) ind s tv.2], acc.2 - h)
  else acc

/-- The left header column (`main.py` lines 124-137): static company lines,
the `INVOICE TO:` heading, then the dynamic client block; returns the
instructions and the final value of `y_pos_left`. -/
def leftColumn (m : Metrics) (d : PyDict) : List Instr × ℚ :=
  let y0 := header_y_start - logo_size - (0.1 * inch + 0.2 * inch)
  let h1 := m.paraH "Yara Escape Tours & Trek" "H2" 0 (3 * inch)
  let y1 := y0 - (h1 + 0.1 * inch)
  let h2 := m.paraH "Specialist in: Sikkim, Darjelling, Northeast" "Normal" 0 (3 * inch)
  let y2 := y1 - (h2 + 0.2 * inch)
  let h3 := m.paraH "<u>INVOICE TO:</u>" "InvoiceTo" 0 (3 * inch)
  let y3 := y2 - (h3 + 0.1 * inch)
  (custInfoDynamic d).foldl (custStep m (addrLines d))
    ([.para LEFT_MARGIN y0 (3 * inch) 0 "Yara Escape Tours & Trek" "H2",
      .para LEFT_MARGIN y1 (3 * inch) 0 "Specialist in: Sikkim, Darjelling, Northeast" "Normal",
      .para LEFT_MARGIN y2 (3 * inch) 0 "<u>INVOICE TO:</u>" "InvoiceTo"], y3)

/-- Final value of `y_pos_left`, read by the table region. -/
def yPosLeftFinal (m : Metrics) (d : PyDict) : ℚ := (leftColumn m d).2

/-- Line 139: `table_start_y = min(y_pos_left, y_pos_right) - 0.3*inch`
(`main.py` line 139). -/
def tableStartY (m : Metrics) (d : PyDict) : ℚ :=
  min (yPosLeftFinal m d) (yPosRightFinal m) - 0.3 * inch

/-! ## Financial summary block (`main.py` lines 152-158) -/

def summary_x : ℚ := PAGE_WIDTH / 2 + 0.5 * inch
def summary_width : ℚ := PAGE_WIDTH - RIGHT_MARGIN - summary_x

/-- The `summary_items` list of line 155, in source order with the prefixes
of the source. -/
def summary_items (sub disc gst adv rate : ℚ) : List (String × String) :=
  [("Sub-total :", formatCommas2 sub),
   ("Discount :", "- " ++ formatCommas2 disc),
   ("GST (" ++ pyFloatStr rate ++ "%) :", "+ " ++ formatCommas2 gst),
   ("Advance Payment :", "- " ++ formatCommas2 adv)]

/-- The label/value loop of line 157: each pair is drawn left/right aligned
at the running y, which then drops by `0.25*inch`; returns the final y. -/
def summaryLines : List (String × String) → ℚ → List Instr × ℚ
| [], y => ([], y)
| (l, v) :: rest, y =>
    let r := summaryLines rest (y - 0.25 * inch)
    (.text "Helvetica" 10 colBlack .left summary_x y l
     :: .text "Helvetica" 10 colBlack .right (PAGE_WIDTH - RIGHT_MARGIN) y v
     :: r.1, r.2)

/-- The whole summary region: the four label/value lines followed by the
filled dark-red rounded `Total Due` band (line 158); returns the
instructions and `summary_bottom_y`. -/
def summaryBlock (tableBottomY sub disc adv rate : ℚ) : List Instr × ℚ :=
  let t := summaryTotals sub disc adv rate
  let sl := summaryLines (summary_items sub disc t.gstAmount adv rate) (tableBottomY - 0.3 * inch)
  let tdY := sl.2
  (sl.1 ++
    [.roundRect (summary_x - 0.1 * inch) (tdY - 0.4 * inch + 0.05 * inch)
       (summary_width + 0.1 * inch) (0.4 * inch) 3 DARK_RED,
     .text "Helvetica-Bold" 12 colWhite .left (summary_x + 0.1 * inch) (tdY - 0.25 * inch) "Total Due :",
     .text "Helvetica-Bold" 12 colWhite .right (PAGE_WIDTH - RIGHT_MARGIN - 0.1 * inch)
       (tdY - 0.25 * inch) (formatCommas2 t.amountDue)],
   tdY - 0.4 * inch)

/-! ## Static lower regions (`main.py` lines 159-186) -/

def terms_width : ℚ := CONTENT_WIDTH * 0.55

def terms_text : String :=
  "Please Pay 40% Advance payment within 12 Hours of receiving this invoice\nFor Instant Booking Confirmation.<br/><font color=\x27green\x27>✔</font> 100% REFUND ON CANCELLATION<br/>(15 Days)"

/-- Terms region; returns instructions and the final `terms_y`. -/
def termsBlock (m : Metrics) (tableBottomY : ℚ) : List Instr × ℚ :=
  let ty0 := tableBottomY - 0.3 * inch
  let h1 := m.paraH "<b>TERMS AND CONDITIONS</b>" "H2" 0 terms_width
  let ty1 := ty0 - (h1 + 0.15 * inch)
  let h2 := m.paraH terms_text "Normal" 0 terms_width
  ([.para LEFT_MARGIN ty0 terms_width 0 "<b>TERMS AND CONDITIONS</b>" "H2",
    .para LEFT_MARGIN (ty1 - h2) terms_width 0 terms_text "Normal"],
   ty1 - (h2 + 0.3 * inch))

def contact_info_static : List (String × String) :=
  [("Phone:", "+91 8250133947 / +91 9883023091"),
   ("Website:", "www.yaraservice.com"),
   ("Address:", "Gangtok, Lumsey Sikkim - 737101")]

/-- One row of the contact block (lines 168-170): label and value are both
drawn with their own measured heights below the shared line start, and the
cursor drops by the larger of the two heights plus the gap. -/
def contactStep (m : Metrics) (acc : List Instr × ℚ) (lv : String × String) : List Instr × ℚ :=
  let hl := m.paraH ("<b>" ++ lv.1 ++ "</b>") "Normal" 0 (0.6 * inch)
  let hv := m.paraH lv.2 "Normal" (0.6 * inch + 0.1 * inch) (terms_width - (0.6 * inch + 0.1 * inch))
  (acc.1 ++
    [.para LEFT_MARGIN (acc.2 - hl) (0.6 * inch) 0 ("<b>" ++ lv.1 ++ "</b>") "Normal",
     .para LEFT_MARGIN (acc.2 - hv) (terms_width - (0.6 * inch + 0.1 * inch))
       (0.6 * inch + 0.1 * inch) lv.2 "Normal"],
   acc.2 - (max hl hv + 0.1 * inch))

/-- Thank-you/contact region (lines 164-170). -/
def contactBlock (m : Metrics) (startY : ℚ) : List Instr × ℚ :=
  let h := m.paraH "<b>THANK YOU FOR CHOOSING US!</b>" "H2" 0 terms_width
  contact_info_static.foldl (contactStep m)
    ([.para LEFT_MARGIN startY terms_width 0 "<b>THANK YOU FOR CHOOSING US!</b>" "H2"],
     startY - (h + 0.2 * inch))

def bank_info : List (String × String) :=
  [("Acc no:", "120033745630"), ("IFSC code:", "CNRB0003731"),
   ("Bank:", "Canara Bank"), ("Account Holder:", "Yara services")]

/-- One row of the bank block (lines 175-178); unlike the contact rows, the
label and value are drawn at the running y itself. -/
def bankStep (m : Metrics) (acc : List Instr × ℚ) (lv : String × String) : List Instr × ℚ :=
  let hl := m.paraH ("<b>" ++ lv.1 ++ "</b>") "Normal" 0 (1 * inch)
  let hv := m.paraH lv.2 "Normal" (1 * inch + 0.05 * inch) (terms_width - (1 * inch + 0.05 * inch))
  (acc.1 ++
    [.para LEFT_MARGIN acc.2 (1 * inch) 0 ("<b>" ++ lv.1 ++ "</b>") "Normal",
     .para LEFT_MARGIN acc.2 (terms_width - (1 * inch + 0.05 * inch))
       (1 * inch + 0.05 * inch) lv.2 "Normal"],
   acc.2 - (max hl hv + 0.05 * inch))

/-- Bank-details region (lines 171-179); returns `bank_details_bottom_y`. -/
def bankBlock (m : Metrics) (contactFinalY : ℚ) : List Instr × ℚ :=
  let by0 := contactFinalY - 0.3 * inch
  let hb := m.paraH "<b>Bank Details:</b>" "H2" 0 terms_width
  bank_info.foldl (bankStep m)
    ([.para LEFT_MARGIN by0 terms_width 0 "<b>Bank Details:</b>" "H2"], by0 - (hb + 0.1 * inch))

def sig_caption : String := "NORTH SIKKIM TOURS &<br/>TRAVELS PVT .LTD"

/-- Signature region (lines 180-183). -/
def signatureBlock (m : Metrics) (summaryBottom bankBottom : ℚ) : List Instr :=
  let sig_base_y := min summaryBottom bankBottom - 0.2 * inch
  let sig_width := 1.5 * inch
  let sig_x := PAGE_WIDTH - RIGHT_MARGIN - sig_width
  let sig_text_y := sig_base_y - 0.1 * inch
  let h := m.paraH sig_caption "Center" 0 sig_width
  drawLogo (m.asset SIGNATURE_PATH) SIGNATURE_PATH (sig_x + (sig_width - 1 * inch) / 2)
    sig_base_y (1 * inch) (0.5 * inch)
  ++ [.para sig_x (sig_text_y - h) sig_width 0 sig_caption "Center"]

/-- Footer region (lines 184-186). -/
def footerInstrs (invNoR invDateS : String) : List Instr :=
  [.line LEFT_MARGIN (BOTTOM_MARGIN + 0.25 * inch) (PAGE_WIDTH - RIGHT_MARGIN)
     (BOTTOM_MARGIN + 0.25 * inch),
   .para LEFT_MARGIN BOTTOM_MARGIN (CONTENT_WIDTH / 2) 0
     ("INVOICE NO: " ++ invNoR ++ " | INVOICE DATE: " ++ invDateS) "Footer"]

/-! ## The whole render -/

/-- The body of `create_invoice_pdf` after the `invoice_date` default has
been resolved.  The `Option` captures the calls that raise on an ill-typed
value: the bare `drawRightString` of `due_date_str` (line 112) and of
`inv_date_str` (line 114) require strings, and the summary arithmetic of
line 153 requires numbers.  (Schema-typed fields that only ever flow through
f-strings are converted with `pyRepr`, which cannot fail.) -/
def renderCore (m : Metrics) (d : PyDict) (inv_date : PyVal) : Option (List Instr) := do
  let dueS ← (d.get "due_date" (.vstr "N/A")).asText
  let invDateS ← inv_date.asText
  let disc ← (d.get "discount" (.vnum 0)).asNum
  let adv ← (d.get "advance_payment" (.vnum 0)).asNum
  let rate ← (d.get "gst_rate" (.vnum 5)).asNum
  let invNoR := pyRepr (d.get "invoice_no" (.vstr "N/A"))
  let bt := buildTable d.getItems
  let tTop := tableStartY m d
  let tableBottomY := tTop - m.tableH bt.1
  let summ := summaryBlock tableBottomY bt.2 disc adv rate
  let terms := termsBlock m tableBottomY
  let contact := contactBlock m terms.2
  let bank := bankBlock m contact.2
  pure
    (drawLogo (m.asset LOGO_PATH) LOGO_PATH LEFT_MARGIN (header_y_start - logo_size)
       logo_size logo_size
     ++ (rightColumn m invNoR invDateS dueS).1
     ++ (leftColumn m d).1
     ++ [.table LEFT_MARGIN tableBottomY bt.1]
     ++ summ.1
     ++ terms.1
     ++ contact.1
     ++ bank.1
     ++ signatureBlock m summ.2 bank.2
     ++ footerInstrs invNoR invDateS)

/-- Model of `create_invoice_pdf` (`main.py` lines 60-190): the only run-dependent
input is the current date, and it enters solely as the `dict.get` default for
`invoice_date` (line 87). -/
def create_invoice_pdf (m : Metrics) (d : PyDict) (today : String) : Option (List Instr) :=
  renderCore m d (d.get "invoice_date" (.vstr today))

/-! ## Fixed records and helper definitions used by the theorems -/

/-- The endpoint scenario of the spec: `items=[{desc:"Trek",price:1000,qty:2}]`,
`discount=0`, `gstRate=5`, `advancePayment=500`. -/
def scenarioReq : InvoiceRequestData :=
  { invoice_no := "INV-001", invoice_date := "01.01.24", client_name := "Client",
    items := [{ desc := "Trek", price := 1000, qty := 2 }],
    discount := 0, advance_payment := 500, gst_rate := 5 }

/-- A request that omits `due_date` (and every other optional field). -/
def reqNoDueDate : InvoiceRequestData :=
  { invoice_no := "INV-1", invoice_date := "01.01.24", client_name := "A" }

/-- A request with `due_date` supplied. -/
def reqAllFields : InvoiceRequestData :=
  { scenarioReq with due_date := some "15.01.24" }

/-- An arbitrary concrete measurement oracle, for instantiating theorems. -/
def trivM : Metrics := ⟨fun _ _ _ _ => 0, fun _ => 0, fun _ => .missing⟩

/-- The line item `{desc:"Trek", price:1000, qty:2}` as it reaches the table
loop. -/
def witItem : PyItem :=
  { desc := some (.vstr "Trek"), price := some (.vnum 1000), qty := some (.vnum 2) }

/-- What the endpoints actually compute for the financial summary: dump the
request with `by_alias=True`, then perform the dict reads of `create_invoice_pdf`
and the line-153 arithmetic. -/
def endpointTotals (r : InvoiceRequestData) : Option Totals := do
  let d := model_dump r
  let disc ← (d.get "discount" (.vnum 0)).asNum
  let adv ← (d.get "advance_payment" (.vnum 0)).asNum
  let rate ← (d.get "gst_rate" (.vnum 5)).asNum
  pure (summaryTotals (buildTable d.getItems).2 disc adv rate)

/-- Whether an instruction is a (rounded) rectangle. -/
def Instr.isRect : Instr → Bool
| .roundRect .. => true
| _ => false

/-! ## Structure of the table loop -/

/-- Unrolling the item loop: one row is appended per item, in order, and the
accumulated subtotal is the sum of the per-item contributions. -/
theorem buildTable_eq (items : List PyItem) :
    buildTable items
      = (headerRow :: items.map (fun it => (itemRow it).1),
         (items.map (fun it => (itemRow it).2)).sum) := by
  have H : ∀ (l : List PyItem) (r0 : List (List Cell)) (s0 : ℚ),
      l.foldl (fun acc it => (acc.1 ++ [(itemRow it).1], acc.2 + (itemRow it).2)) (r0, s0)
        = (r0 ++ l.map (fun it => (itemRow it).1),
           s0 + (l.map (fun it => (itemRow it).2)).sum) := by
    intro l
    induction l with
    | nil => intro r0 s0; simp
    | cons a t ih => intro r0 s0; simp [ih, add_assoc]
  simpa [buildTable] using H items [headerRow] 0

/-- The row built for one item, by cases on the two coercions. -/
theorem itemRow_fst (it : PyItem) :
    (itemRow it).1
      = (match pyFloat it.getPrice, pyFloat it.getQty with
         | some p, some q =>
             [Cell.para (pyRepr it.getDesc) "TableCell",
              Cell.para (if p ≠ 0 then formatCommas2 p else "") "TableCellCenter",
              Cell.para (pyFloatStr q) "TableCellCenter",
              Cell.para (formatCommas2 (p * q)) "TableCellRight"]
         | _, _ =>
             [Cell.para (pyRepr it.getDesc ++ " (Invalid Price/Qty)") "TableCell",
              Cell.raw "", Cell.raw "", Cell.raw ""]) := by
  cases hp : pyFloat it.getPrice <;> cases hq : pyFloat it.getQty <;>
    simp [itemRow, hp, hq]

/-- The subtotal contributed by one item, by cases on the two coercions. -/
theorem itemRow_snd (it : PyItem) :
    (itemRow it).2
      = (match pyFloat it.getPrice, pyFloat it.getQty with
         | some p, some q => p * q
         | _, _ => 0) := by
  cases hp : pyFloat it.getPrice <;> cases hq : pyFloat it.getQty <;>
    simp [itemRow, hp, hq]

/-- The accumulated subtotal as a sum over the items, with an invalid item
contributing `0`. -/
theorem buildTable_snd (items : List PyItem) :
    (buildTable items).2
      = (items.map (fun it =>
          match pyFloat it.getPrice, pyFloat it.getQty with
          | some p, some q => p * q
          | _, _ => 0)).sum := by
  rw [buildTable_eq]
  simp only [itemRow_snd]

/-! ## Claim theorems -/

/-- C1: for an invoice whose items all coerce numerically, the rendered
summary quantities satisfy `subTotal = Σ price·qty`,
`gstAmount = (subTotal − discount)·gstRate/100`,
`grandTotal = (subTotal − discount) + gstAmount`,
`amountDue = grandTotal − advancePayment`, and equivalently
`amountDue = (subTotal − discount)·(1 + gstRate/100) − advancePayment`;
all arithmetic is exact (no intermediate rounding before formatting). -/
theorem totals_formulas (items : List PyItem) (disc adv rate : ℚ)
    (h : ∀ it ∈ items, (pyFloat it.getPrice).isSome ∧ (pyFloat it.getQty).isSome) :
    (buildTable items).2
      = (items.map (fun it =>
          ((pyFloat it.getPrice).getD 0) * ((pyFloat it.getQty).getD 0))).sum
    ∧ (summaryTotals (buildTable items).2 disc adv rate).gstAmount
        = ((buildTable items).2 - disc) * (rate / 100)
    ∧ (summaryTotals (buildTable items).2 disc adv rate).grandTotal
        = ((buildTable items).2 - disc)
          + (summaryTotals (buildTable items).2 disc adv rate).gstAmount
    ∧ (summaryTotals (buildTable items).2 disc adv rate).amountDue
        = (summaryTotals (buildTable items).2 disc adv rate).grandTotal - adv
    ∧ (summaryTotals (buildTable items).2 disc adv rate).amountDue
        = ((buildTable items).2 - disc) * (1 + rate / 100) - adv := by
  refine ⟨?_, by simp [summaryTotals], by simp [summaryTotals],
    by simp [summaryTotals], by simp [summaryTotals]; ring⟩
  rw [buildTable_snd]
  induction items with
  | nil => simp
  | cons a t ih =>
    have ha := h a (by simp)
    obtain ⟨p, hp⟩ := Option.isSome_iff_exists.mp ha.1
    obtain ⟨q, hq⟩ := Option.isSome_iff_exists.mp ha.2
    simp [hp, hq, ih (fun it hit => h it (by simp [hit]))]

/-- C1 witness: the scenario item at `discount=0`, `advancePayment=500`,
`gstRate=5`. -/
theorem totals_formulas_witness :
    (summaryTotals (buildTable [witItem]).2 0 500 5).amountDue
      = ((buildTable [witItem]).2 - 0) * (1 + 5 / 100) - 500 :=
  (totals_formulas [witItem] 0 500 5 (by decide)).2.2.2.2

/-- C10: subtotal accumulation is atomic per item — an item contributes
`price·qty` exactly when both coercions succeed, and `0` otherwise (in
particular when `price` coerces but `qty` does not), so the accumulated
subtotal is the sum over fully valid items only. -/
theorem subtotal_atomic (items : List PyItem) :
    (buildTable items).2
      = (items.map (fun it =>
          match pyFloat it.getPrice, pyFloat it.getQty with
          | some p, some q => p * q
          | _, _ => 0)).sum :=
  buildTable_snd items

/-- C3: the table body has exactly one row per item in insertion order; a
row whose `price`/`qty` fails coercion carries the description suffixed
`" (Invalid Price/Qty)"` and blank (bare empty-string) numeric cells, and
every other row is the usual formatted row — the loop never aborts. -/
theorem table_rows_per_item (items : List PyItem) :
    (buildTable items).1
      = headerRow :: items.map (fun it =>
          match pyFloat it.getPrice, pyFloat it.getQty with
          | some p, some q =>
              [Cell.para (pyRepr it.getDesc) "TableCell",
               Cell.para (if p ≠ 0 then formatCommas2 p else "") "TableCellCenter",
               Cell.para (pyFloatStr q) "TableCellCenter",
               Cell.para (formatCommas2 (p * q)) "TableCellRight"]
          | _, _ =>
              [Cell.para (pyRepr it.getDesc ++ " (Invalid Price/Qty)") "TableCell",
               Cell.raw "", Cell.raw "", Cell.raw ""]) := by
  rw [buildTable_eq]
  simp only [itemRow_fst]

/-- A kept character is never whitespace. -/
theorem keep_not_space (c : Char) (h : keepChar c = true) : pyIsSpace c = false := by
  cases hs : pyIsSpace c
  · rfl
  · exfalso
    have hc : ((((c = ' ' ∨ c = '\t') ∨ c = '\n') ∨ c = '\r') ∨ c = '\x0b')
        ∨ c = '\x0c' := by
      simpa [pyIsSpace] using hs
    rcases hc with ((((rfl | rfl) | rfl) | rfl) | rfl) | rfl <;> exact absurd h (by decide)

/-- An rstrip does nothing after the sanitizing filter. -/
theorem rstrip_filter (l : List Char) :
    pyRstrip (l.filter keepChar) = l.filter keepChar := by
  unfold pyRstrip
  have h : (l.filter keepChar).reverse.dropWhile pyIsSpace
      = (l.filter keepChar).reverse := by
    cases hrev : (l.filter keepChar).reverse with
    | nil => simp
    | cons a t =>
      have ha : a ∈ l.filter keepChar := by
        rw [← List.mem_reverse, hrev]; exact List.mem_cons_self a t
      have hk : keepChar a = true := (List.mem_filter.mp ha).2
      rw [List.dropWhile_cons, keep_not_space a hk]
      simp
  rw [h, List.reverse_reverse]

/-- C5: the download filename is `invoice_<S>.pdf` where `S` keeps exactly
the alphanumerics, `-` and `_` of the invoice number, in order, with the
literal `generated` substituted when `S` is empty; in particular
`INV/2024#01 ↦ invoice_INV202401.pdf` and an empty or all-symbol invoice
number yields `invoice_generated.pdf`. -/
theorem filename_sanitization :
    (∀ s : String,
       downloadFilename s
         = "invoice_"
           ++ (if s.toList.filter keepChar = [] then "generated"
               else String.mk (s.toList.filter keepChar))
           ++ ".pdf")
    ∧ downloadFilename "INV/2024#01" = "invoice_INV202401.pdf"
    ∧ downloadFilename "" = "invoice_generated.pdf"
    ∧ downloadFilename "@#/!" = "invoice_generated.pdf" := by
  refine ⟨?_, by decide, by decide, by decide⟩
  intro s
  have hs : sanitizeInvoiceNo s = String.mk (s.toList.filter keepChar) := by
    unfold sanitizeInvoiceNo
    rw [rstrip_filter]
  have hiff : (String.mk (s.toList.filter keepChar) = "")
      ↔ (s.toList.filter keepChar = []) := by
    constructor
    · intro hc
      have := congrArg String.data hc
      simpa using this
    · intro hc
      rw [hc]
  unfold downloadFilename
  rw [hs]
  by_cases h : s.toList.filter keepChar = []
  · rw [if_pos (hiff.mpr h), if_pos h]
  · rw [if_neg (fun hc => h (hiff.mp hc)), if_neg h]

/-- C2: the claim is refuted by the alias mismatch — the request model dumps
with `by_alias=True` (keys `advancePayment` / `gstRate`), but
`create_invoice_pdf` reads `advance_payment` / `gst_rate`, so the supplied
values never reach the layout: for the scenario request the read yields the
default `0.0` although `advancePayment=500` was supplied (with key
`advancePayment` present in the dict), and the computed summary is
`subTotal=2000, gstAmount=100, grandTotal=2100, amountDue=2100` — not the
claimed `amountDue=1600`. -/
theorem alias_mismatch_drops_supplied_values :
    scenarioReq.advance_payment = 500
    ∧ (model_dump scenarioReq).get "advance_payment" (.vnum 0) = .vnum 0
    ∧ (model_dump scenarioReq).get "gst_rate" (.vnum 5) = .vnum 5
    ∧ (model_dump scenarioReq).entries.lookup "advancePayment" = some (.vnum 500)
    ∧ endpointTotals scenarioReq = some ⟨2000, 100, 2100, 2100⟩
    ∧ (2100 : ℚ) ≠ 1600 := by
  refine ⟨rfl, rfl, rfl, rfl, ?_, by norm_num⟩
  simp [endpointTotals, scenarioReq, model_dump, PyDict.get, PyDict.getItems,
    PyVal.asNum, buildTable, itemRow, PyItem.getPrice, PyItem.getQty, pyFloat,
    summaryTotals, headerRow, optStr, List.lookup]
  norm_num

/-- C4: the claim is refuted for `due_date` — through the service pipeline a
request omitting `due_date` dumps the key with value `None`, so
`dict.get("due_date", "N/A")` returns `None` (the key is present) and the
`"N/A"` default never applies; the Due Date draw then receives a non-string
and the render fails instead of printing `N/A`. -/
theorem due_date_default_never_applies :
    (model_dump reqNoDueDate).get "due_date" (.vstr "N/A") = PyVal.vnone
    ∧ PyVal.vnone ≠ PyVal.vstr "N/A"
    ∧ ∀ (m : Metrics) (today : String),
        create_invoice_pdf m (model_dump reqNoDueDate) today = Option.none := by
  refine ⟨rfl, by decide, ?_⟩
  intro m today
  rfl

/-- Reading a key that is present ignores the supplied default. -/
theorem PyDict.get_of_lookup {d : PyDict} {k : String} {v : PyVal}
    (h : d.entries.lookup k = some v) (dflt : PyVal) : d.get k dflt = v := by
  simp [PyDict.get, h]

/-- C7: rendering is deterministic — when `invoice_date` (and `due_date`)
are supplied, the emitted instruction stream does not depend on the current
date, the only run-dependent input of `create_invoice_pdf` (the byte-level
PDF backend is outside the repository and abstracted as the canvas). -/
theorem render_deterministic (m : Metrics) (d : PyDict) (t₁ t₂ : String)
    (hinv : (d.entries.lookup "invoice_date").isSome = true)
    (_hdue : (d.entries.lookup "due_date").isSome = true) :
    create_invoice_pdf m d t₁ = create_invoice_pdf m d t₂ := by
  obtain ⟨v, hv⟩ := Option.isSome_iff_exists.mp hinv
  unfold create_invoice_pdf
  rw [PyDict.get_of_lookup hv, PyDict.get_of_lookup hv]

/-- C7 witness: a concrete record rendered under two different current
dates. -/
theorem render_deterministic_witness :
    create_invoice_pdf trivM (model_dump reqAllFields) "01.01.25"
      = create_invoice_pdf trivM (model_dump reqAllFields) "02.02.25" :=
  render_deterministic trivM (model_dump reqAllFields) "01.01.25" "02.02.25"
    (by rfl) (by rfl)

/-- C9: the top edge of the table sits at
`min(leftCursor, rightCursor) − 0.3 in`, strictly below both header
column final cursors, for every record and every measurement outcome. -/
theorem table_top_below_columns (m : Metrics) (d : PyDict) :
    tableStartY m d = min (yPosLeftFinal m d) (yPosRightFinal m) - 0.3 * inch
    ∧ tableStartY m d < yPosLeftFinal m d
    ∧ tableStartY m d < yPosRightFinal m := by
  have hgap : (0 : ℚ) < 0.3 * inch := by norm_num [inch]
  refine ⟨rfl, ?_, ?_⟩
  · have h := min_le_left (yPosLeftFinal m d) (yPosRightFinal m)
    unfold tableStartY
    linarith
  · have h := min_le_right (yPosLeftFinal m d) (yPosRightFinal m)
    unfold tableStartY
    linarith

/-- C6 counterexample: for a concrete missing asset (the logo, at its actual
position) the fallback draws no rectangle at all — the claimed "neutral
rectangle region" placeholder does not exist in the instruction stream. -/
theorem missing_asset_no_rectangle :
    (drawLogo .missing LOGO_PATH LEFT_MARGIN (header_y_start - logo_size)
        logo_size logo_size).all (fun i => !i.isRect) = true := by
  rfl

/-- C6 amended: when an asset is unavailable the render still completes and
returns a full document, and in place of the image only a centered caption
naming the asset is drawn — dark-grey `[<name> not found]` when absent, red
`Image Error: <name>` when present but failing to load (visually distinct
treatments) — with no rectangle placeholder. -/
theorem placeholder_captions :
    (∀ (path : String) (x y w h : ℚ),
       drawLogo .missing path x y w h
         = [.text "Helvetica" 8 colDarkgrey .center (x + w / 2) (y + h / 2)
             ("[" ++ pyBasename path ++ " not found]")]
       ∧ drawLogo .loadError path x y w h
         = [.text "Helvetica" 8 colRed .center (x + w / 2) (y + h / 2)
             ("Image Error: " ++ pyBasename path)])
    ∧ colRed ≠ colDarkgrey
    ∧ ∀ (m : Metrics) (r : InvoiceRequestData) (s today : String),
        r.due_date = some s →
        (create_invoice_pdf m (model_dump r) today).isSome = true := by
  refine ⟨fun path x y w h => ⟨rfl, rfl⟩, ?_, ?_⟩
  · intro hc
    have hr := congrArg Color.r hc
    norm_num [colRed, colDarkgrey] at hr
  intro m r s today hd
  rw [create_invoice_pdf, renderCore]
  rw [show (model_dump r).get "due_date" (.vstr "N/A") = optStr r.due_date from rfl, hd]
  rfl

/-- C6 witness: a concrete record rendered with all three assets missing. -/
theorem placeholder_captions_witness :
    (create_invoice_pdf trivM (model_dump reqAllFields) "x").isSome = true :=
  placeholder_captions.2.2 trivM reqAllFields "15.01.24" "x" rfl

/-! ## Well-formedness of the currency format -/

theorem digitChar_isDigit {n : ℕ} (h : n < 10) : (Nat.digitChar n).isDigit = true := by
  interval_cases n <;> decide

theorem natDigitsRev_ne_nil (n : ℕ) : natDigitsRev n ≠ [] := by
  unfold natDigitsRev
  split <;> simp

theorem natDigitsRev_all_digits (n : ℕ) : (natDigitsRev n).all Char.isDigit = true := by
  induction n using Nat.strong_induction_on with
  | _ n ih =>
    unfold natDigitsRev
    split
    · next h => simp [digitChar_isDigit h]
    · next h =>
      simp only [List.all_cons, Bool.and_eq_true]
      exact ⟨digitChar_isDigit (Nat.mod_lt _ (by omega)),
        ih (n / 10) (Nat.div_lt_self (by omega) (by omega))⟩

theorem groupThrees_ne_nil {l : List Char} (h : l ≠ []) : groupThrees l ≠ [] := by
  unfold groupThrees
  split
  · exact h
  · simp

/-- Every character of a grouped digit list is a source character or a
comma. -/
theorem mem_groupThrees (c : Char) :
    ∀ (n : ℕ) (l : List Char), l.length ≤ n → c ∈ groupThrees l → c ∈ l ∨ c = ',' := by
  intro n
  induction n with
  | zero =>
    intro l hl hc
    have : l = [] := by
      cases l with
      | nil => rfl
      | cons a t => simp at hl
    subst this
    simp [groupThrees] at hc
  | succ n ih =>
    intro l hl hc
    rw [groupThrees] at hc
    split at hc
    · exact Or.inl hc
    · next h3 =>
      rcases List.mem_append.mp hc with hm | hm
      · exact Or.inl (List.mem_of_mem_take hm)
      · rcases List.mem_cons.mp hm with rfl | hm
        · exact Or.inr rfl
        · rcases ih (l.drop 3) (by simp [List.length_drop]; omega) hm with hm' | hm'
          · exact Or.inl (List.mem_of_mem_drop hm')
          · exact Or.inr hm'

/-- Grouping an all-digit, non-empty list yields a well-formed grouped
integer part. -/
theorem goodRev_groupThrees :
    ∀ (n : ℕ) (l : List Char), l.length ≤ n → l ≠ [] →
      l.all Char.isDigit = true → goodRev (groupThrees l) = true := by
  intro n
  induction n with
  | zero =>
    intro l hl hne _
    cases l with
    | nil => exact absurd rfl hne
    | cons a t => simp at hl
  | succ n ih =>
    intro l hl hne hd
    by_cases h3 : l.length ≤ 3
    · rw [groupThrees, dif_pos h3, goodRev, dif_pos h3]
      simp [hne, hd]
    · rcases l with _ | ⟨a, l⟩
      · simp at h3
      rcases l with _ | ⟨b, l⟩
      · simp at h3
      rcases l with _ | ⟨c, l⟩
      · simp at h3
      rcases l with _ | ⟨e, t⟩
      · simp at h3
      · rw [groupThrees, dif_neg h3]
        have hlen4 : ¬ (((a :: b :: c :: e :: t).take 3
            ++ ',' :: groupThrees ((a :: b :: c :: e :: t).drop 3)).length ≤ 3) := by
          simp
        rw [goodRev, dif_neg hlen4]
        simp only [List.all_cons, Bool.and_eq_true] at hd
        have htail : goodRev (groupThrees (e :: t)) = true := by
          refine ih (e :: t) ?_ (by simp) ?_
          · simp at hl ⊢
            omega
          · simp [hd.2.2.2.1, hd.2.2.2.2]
        simp [hd.1, hd.2.1, hd.2.2.1, htail]

/-- Every string `formatCommas2` produces is a well-formed currency string:
optional sign, comma-grouped integer part, exactly two decimals. -/
theorem formatCommas2_wf (q : ℚ) : isCurrencyFormat (formatCommas2 q) = true := by
  unfold formatCommas2 isCurrencyFormat
  set n := (round (q * 100)).natAbs with hn
  set ir := groupThrees (natDigitsRev (n / 100)) with hir
  have hirne : ir ≠ [] := groupThrees_ne_nil (natDigitsRev_ne_nil _)
  have hgood : goodRev ir = true :=
    goodRev_groupThrees (natDigitsRev (n / 100)).length _ le_rfl
      (natDigitsRev_ne_nil _) (natDigitsRev_all_digits _)
  have hd1 : (Nat.digitChar (n % 100 / 10)).isDigit = true :=
    digitChar_isDigit (by omega)
  have hd2 : (Nat.digitChar (n % 100 % 10)).isDigit = true :=
    digitChar_isDigit (by omega)
  have hmem : ∀ x ∈ ir, x.isDigit = true ∨ x = ',' := by
    intro x hx
    rcases mem_groupThrees x (natDigitsRev (n / 100)).length _ le_rfl hx with hm | hm
    · exact Or.inl (by
        have := natDigitsRev_all_digits (n / 100)
        exact List.all_eq_true.mp this x hm)
    · exact Or.inr hm
  by_cases hneg : round (q * 100) < 0
  · simp only [if_pos hneg]
    show (match
        (match ('-' :: (ir.reverse ++ '.' ::
            [Nat.digitChar (n % 100 / 10), Nat.digitChar (n % 100 % 10)]) : List Char) with
         | '-' :: rest => rest
         | l => l).reverse with
      | d2 :: d1 :: '.' :: restRev => d1.isDigit && d2.isDigit && goodRev restRev
      | _ => false) = true
    have hrev : (ir.reverse ++ '.' ::
        [Nat.digitChar (n % 100 / 10), Nat.digitChar (n % 100 % 10)]).reverse
        = Nat.digitChar (n % 100 % 10) :: Nat.digitChar (n % 100 / 10) :: '.' :: ir := by
      simp
    rw [show (match ('-' :: (ir.reverse ++ '.' ::
        [Nat.digitChar (n % 100 / 10), Nat.digitChar (n % 100 % 10)]) : List Char) with
      | '-' :: rest => rest
      | l => l) = ir.reverse ++ '.' ::
        [Nat.digitChar (n % 100 / 10), Nat.digitChar (n % 100 % 10)] from rfl, hrev]
    simp [hd1, hd2, hgood]
  · simp only [if_neg hneg]
    obtain ⟨a, t, hat⟩ : ∃ a t, ir.reverse = a :: t := by
      cases hrv : ir.reverse with
      | nil => exact absurd (by simpa using hrv) hirne
      | cons a t => exact ⟨a, t, rfl⟩
    have ha : a ≠ '-' := by
      have hmema : a ∈ ir := by
        rw [← List.mem_reverse, hat]
        exact List.mem_cons_self a t
      rcases hmem a hmema with hdig | hcomma
      · intro hc
        rw [hc] at hdig
        exact absurd hdig (by decide)
      · intro hc
        rw [hc] at hcomma
        exact absurd hcomma (by decide)
    show (match
        (match (ir.reverse ++ '.' ::
            [Nat.digitChar (n % 100 / 10), Nat.digitChar (n % 100 % 10)] : List Char) with
         | '-' :: rest => rest
         | l => l).reverse with
      | d2 :: d1 :: '.' :: restRev => d1.isDigit && d2.isDigit && goodRev restRev
      | _ => false) = true
    rw [hat]
    have hstrip : (match (a :: (t ++ '.' ::
        [Nat.digitChar (n % 100 / 10), Nat.digitChar (n % 100 % 10)]) : List Char) with
      | '-' :: rest => rest
      | l => l) = a :: (t ++ '.' ::
        [Nat.digitChar (n % 100 / 10), Nat.digitChar (n % 100 % 10)]) := by
      split
      · next heq =>
        injection heq with h1 h2
        exact absurd h1 ha
      · rfl
    rw [List.cons_append, hstrip]
    have hrev2 : (a :: (t ++ '.' ::
        [Nat.digitChar (n % 100 / 10), Nat.digitChar (n % 100 % 10)])).reverse
        = Nat.digitChar (n % 100 % 10) :: Nat.digitChar (n % 100 / 10) :: '.' :: ir := by
      have : a :: (t ++ '.' ::
          [Nat.digitChar (n % 100 / 10), Nat.digitChar (n % 100 % 10)])
          = (a :: t) ++ '.' ::
            [Nat.digitChar (n % 100 / 10), Nat.digitChar (n % 100 % 10)] := by
        simp
      rw [this, ← hat]
      simp
    rw [hrev2]
    simp [hd1, hd2, hgood]

/-- C8: the summary block consists of exactly the four label/value lines in
order Sub-total, Discount (value prefixed `- `), GST at the active rate
(value prefixed `+ `), Advance Payment (value prefixed `- `), followed by
the filled dark-red rounded `Total Due` band showing `amountDue`; and every
currency value in the block is formatted with thousands separators and
exactly two decimal places. -/
theorem summary_block_shape (tableBottomY sub disc adv rate : ℚ) :
    ((summaryBlock tableBottomY sub disc adv rate).1
      = (let t := summaryTotals sub disc adv rate
         let y0 := tableBottomY - 0.3 * inch
         let y1 := y0 - 0.25 * inch
         let y2 := y1 - 0.25 * inch
         let y3 := y2 - 0.25 * inch
         let tdY := y3 - 0.25 * inch
         [Instr.text "Helvetica" 10 colBlack .left summary_x y0 "Sub-total :",
          Instr.text "Helvetica" 10 colBlack .right (PAGE_WIDTH - RIGHT_MARGIN) y0
            (formatCommas2 sub),
          Instr.text "Helvetica" 10 colBlack .left summary_x y1 "Discount :",
          Instr.text "Helvetica" 10 colBlack .right (PAGE_WIDTH - RIGHT_MARGIN) y1
            ("- " ++ formatCommas2 disc),
          Instr.text "Helvetica" 10 colBlack .left summary_x y2
            ("GST (" ++ pyFloatStr rate ++ "%) :"),
          Instr.text "Helvetica" 10 colBlack .right (PAGE_WIDTH - RIGHT_MARGIN) y2
            ("+ " ++ formatCommas2 t.gstAmount),
          Instr.text "Helvetica" 10 colBlack .left summary_x y3 "Advance Payment :",
          Instr.text "Helvetica" 10 colBlack .right (PAGE_WIDTH - RIGHT_MARGIN) y3
            ("- " ++ formatCommas2 adv),
          Instr.roundRect (summary_x - 0.1 * inch) (tdY - 0.4 * inch + 0.05 * inch)
            (summary_width + 0.1 * inch) (0.4 * inch) 3 DARK_RED,
          Instr.text "Helvetica-Bold" 12 colWhite .left (summary_x + 0.1 * inch)
            (tdY - 0.25 * inch) "Total Due :",
          Instr.text "Helvetica-Bold" 12 colWhite .right
            (PAGE_WIDTH - RIGHT_MARGIN - 0.1 * inch) (tdY - 0.25 * inch)
            (formatCommas2 t.amountDue)]))
    ∧ isCurrencyFormat (formatCommas2 sub) = true
    ∧ isCurrencyFormat (formatCommas2 disc) = true
    ∧ isCurrencyFormat (formatCommas2 (summaryTotals sub disc adv rate).gstAmount) = true
    ∧ isCurrencyFormat (formatCommas2 adv) = true
    ∧ isCurrencyFormat (formatCommas2 (summaryTotals sub disc adv rate).amountDue) = true := by
  exact ⟨rfl, formatCommas2_wf sub, formatCommas2_wf disc, formatCommas2_wf _,
    formatCommas2_wf adv, formatCommas2_wf _⟩

end Yara
